import Mathlib

/-!
Shallow embedding of `app_faiss_api.py`, the retrieval-augmented query
pipeline of the repository: index/metadata loading, memoized local
embeddings, FAISS nearest-neighbour search, context assembly, Gemini
answer extraction, and the `/consultar` orchestrator.

Modelling conventions:
* Embedding vectors are opaque to every claim (the pipeline only passes
  them to `search` and compares them for cache identity), so they are
  modelled as `List Int`.
* The SentenceTransformer model and the Gemini client are external
  collaborators, passed in as function parameters.
* Python exceptions become an explicit `PyErr` value; `str(e)` is
  `PyErr.message`.
* The FAISS index is modelled by its documented search contract: for a
  query it ranks its `ntotal` stored vectors nearest-first, and
  `search` with count `k` returns exactly `k` labels — the ranked
  positions first, padded with `-1` when `k > ntotal`.
* Ghost counters (`modelCalls`, `searchCalls`, `genCalls`) instrument
  how often each external collaborator is invoked; they change nothing
  else.
-/

/-- An embedding vector.  Its numeric contents are opaque to the whole
pipeline (only handed to `search`), so the float payload is abstracted. -/
abbrev Vec := List Int

/-- One document record of `metadata.json`: the code reads
`doc['file']` and `doc['text']`. -/
structure DocRecord where
  file : String
  text : String
  deriving DecidableEq, Repr

/-- Python exceptions that the pipeline can raise; `message` below is
`str(e)`. -/
inductive PyErr where
  | fileNotFound (msg : String)
  | valueError (msg : String)
  | runtimeError (msg : String)
  | indexError (msg : String)
  | apiError (msg : String)
  deriving DecidableEq, Repr

/-- `str(e)` for a Python exception. -/
def PyErr.message : PyErr → String
  | .fileNotFound m => m
  | .valueError m => m
  | .runtimeError m => m
  | .indexError m => m
  | .apiError m => m

/-- Python list subscription `l[i]` with an `int` index: non-negative
indices must be `< len`, negative indices count from the end
(`l[-1]` is the last element); out of either range raises `IndexError`. -/
def pyGet (l : List DocRecord) (i : Int) : Option DocRecord :=
  if 0 ≤ i then l.get? i.toNat
  else if 0 ≤ (l.length : Int) + i then l.get? ((l.length : Int) + i).toNat
  else none

/-- The loaded FAISS index: `ntotal` stored vectors; `rank q` is the
position list of all stored vectors ordered nearest-first to `q`
(a permutation of `0 .. ntotal-1`). -/
structure FaissIndex where
  ntotal : Nat
  rank : Vec → List Nat
  rank_perm : ∀ q, (rank q).Perm (List.range ntotal)

/-- `index.search(q, k)`: row 0 of the int64 label matrix `I`.  Per
the FAISS search contract it holds exactly `k` labels: the `min k
ntotal` nearest stored positions in ascending-distance order, padded
with `-1` when fewer than `k` vectors are stored. -/
def faissSearch (idx : FaissIndex) (q : Vec) (k : Nat) : List Int :=
  ((idx.rank q).take k).map Int.ofNat ++ List.replicate (k - idx.ntotal) (-1)

/-- The value parsed from `metadata.json`: either a JSON list of
document records or some non-list JSON value. -/
inductive MetadataJson where
  | jlist (records : List DocRecord)
  | notList
  deriving DecidableEq, Repr

/-- The on-disk inputs: the serialized FAISS file and `metadata.json`,
each either absent (`none`) or present with its parsed content. -/
structure FileSystem where
  indexFile : Option FaissIndex
  metadataFile : Option MetadataJson

/-- `cargar_index_y_metadata()`: raises `FileNotFoundError` when
either file is missing, parses metadata, raises `ValueError` when the
parsed metadata is not a list, and otherwise returns the pair. -/
def cargar_index_y_metadata (fs : FileSystem) :
    Except PyErr (FaissIndex × List DocRecord) :=
  if fs.indexFile.isNone ∨ fs.metadataFile.isNone then
    .error (.fileNotFound "❌ No se encontraron los archivos FAISS o metadata.json")
  else
    match fs.indexFile, fs.metadataFile with
    | some idx, some mj =>
        match mj with
        | .jlist records => .ok (idx, records)
        | .notList => .error (.valueError "❌ metadata.json debe ser una lista de diccionarios")
    | _, _ => .error (.fileNotFound "❌ No se encontraron los archivos FAISS o metadata.json")

/-- The process-wide module state: the globals `index` and `metadata`,
the `lru_cache` of `obtener_embedding_local` (most-recently-used
first), and ghost invocation counters for the three external
collaborators. -/
structure AppState where
  index : Option FaissIndex
  metadata : Option (List DocRecord)
  cache : List (String × Vec)
  modelCalls : Nat
  searchCalls : Nat
  genCalls : Nat

/-- The module-level startup block: `try: index, metadata =
cargar_index_y_metadata() except: index, metadata = None, None`, with
an empty embedding cache and zeroed counters. -/
def initState (fs : FileSystem) : AppState :=
  match cargar_index_y_metadata fs with
  | .ok (idx, md) =>
      { index := some idx, metadata := some md, cache := []
        modelCalls := 0, searchCalls := 0, genCalls := 0 }
  | .error _ =>
      { index := none, metadata := none, cache := []
        modelCalls := 0, searchCalls := 0, genCalls := 0 }

/-- Capacity of the `@lru_cache(maxsize=5000)` decorator. -/
def lruCapacity : Nat := 5000

/-- `obtener_embedding_local(texto)` under `@lru_cache(maxsize=5000)`:
on a hit the memoized vector is returned and the entry moves to the
front (most recently used); on a miss the SentenceTransformer model is
invoked once, the result is inserted in front, and entries beyond the
capacity are evicted from the least-recently-used end. -/
def obtener_embedding_local (model : String → Vec) (st : AppState)
    (texto : String) : Vec × AppState :=
  match st.cache.lookup texto with
  | some v =>
      (v, { st with cache := (texto, v) :: st.cache.eraseP (fun e => texto == e.1) })
  | none =>
      let v := model texto
      (v, { st with
              cache := ((texto, v) :: st.cache).take lruCapacity
              modelCalls := st.modelCalls + 1 })

/-- The formatted block the loop appends per retrieved document:
`f"Documento: \x7bdoc['file']\x7d\nTexto: \x7bdoc['text']\x7d\n\n"`. -/
def fmtBlock (doc : DocRecord) : String :=
  "Documento: " ++ doc.file ++ "\nTexto: " ++ doc.text ++ "\n\n"

/-- The body of the `for idx in I[0]` loop: subscript `metadata[idx]`
(raising `IndexError` exactly when Python subscription fails) and
append the block to the accumulator. -/
def buildLoop (md : List DocRecord) (acc : String) :
    List Int → Except PyErr String
  | [] => .ok acc
  | p :: ps =>
      match pyGet md p with
      | none => .error (.indexError "list index out of range")
      | some doc => buildLoop md (acc ++ fmtBlock doc) ps

/-- `buscar_contexto_para_gemini(consulta, top_k=3)`: guard on the
globals, embed the query (cache-aware), search the index, and fold the
retrieved records into the context string. -/
def buscar_contexto_para_gemini (model : String → Vec) (st : AppState)
    (consulta : String) (top_k : Nat := 3) :
    Except PyErr String × AppState :=
  if st.index.isNone ∨ st.metadata.isNone then
    (.error (.runtimeError "⚠️ El índice FAISS no está disponible en memoria"), st)
  else
    match st.index, st.metadata with
    | some idx, some md =>
        let r := obtener_embedding_local model st consulta
        (buildLoop md "" (faissSearch idx r.1 top_k),
         { r.2 with searchCalls := r.2.searchCalls + 1 })
    | _, _ =>
        (.error (.runtimeError "⚠️ El índice FAISS no está disponible en memoria"), st)

/-- One `part` of a Gemini candidate's content. -/
structure GenPart where
  text : String
  deriving DecidableEq, Repr

/-- The `content` of a Gemini candidate. -/
structure GenContent where
  parts : List GenPart
  deriving DecidableEq, Repr

/-- One entry of `respuesta.candidates`. -/
structure GenCandidate where
  content : GenContent
  deriving DecidableEq, Repr

/-- A response object of the Gemini client library.  `text = some _`
models `hasattr(respuesta, "text")`, `candidates = some _` models
`hasattr(respuesta, "candidates")`; `raw` is the object's Python
string representation, interpolated into the failure message. -/
structure GenResponse where
  text : Option String
  candidates : Option (List GenCandidate)
  raw : String
  deriving DecidableEq, Repr

/-- The prompt template of `responder_con_gemini`. -/
def promptTemplate (contexto pregunta : String) : String :=
  "\nUsá el siguiente contexto para responder la pregunta del usuario, si no encuentras la respuesta intenta responderla tú,\nten en cuenta que somos una empresa de TI que soluciona problemas a la industria y al agro.\n\nContexto:\n"
    ++ contexto ++ "\n\nPregunta:\n" ++ pregunta ++ "\n"

/-- The answer-extraction tail of `responder_con_gemini`: try the
direct `text` attribute, then `candidates[0].content.parts[0].text`
(whose subscriptions can themselves raise `IndexError`), else raise
`ValueError` carrying the raw response representation. -/
def extractAnswer (r : GenResponse) : Except PyErr String :=
  match r.text with
  | some t => .ok t
  | none =>
      match r.candidates with
      | some cs =>
          match cs.head? with
          | none => .error (.indexError "list index out of range")
          | some c =>
              match c.content.parts.head? with
              | none => .error (.indexError "list index out of range")
              | some p => .ok p.text
      | none => .error (.valueError ("❌ No se pudo interpretar la respuesta de Gemini: " ++ r.raw))

/-- `responder_con_gemini(pregunta, contexto)`: build the prompt, call
`modelo.generate_content` (the `gemini` collaborator, which may itself
raise), then extract the answer.  The ghost `genCalls` counter records
the generation call. -/
def responder_con_gemini (gemini : String → Except PyErr GenResponse)
    (st : AppState) (pregunta contexto : String) :
    Except PyErr String × AppState :=
  let st1 := { st with genCalls := st.genCalls + 1 }
  match gemini (promptTemplate contexto pregunta) with
  | .error e => (.error e, st1)
  | .ok r => (extractAnswer r, st1)

/-- The parsed JSON body of a POST to `/consultar`: `pregunta` is
`data.get("pregunta")`, `none` when the field is missing. -/
structure RequestBody where
  pregunta : Option String

/-- `if not pregunta`: the field is missing or the string is empty. -/
def preguntaFalsy (body : RequestBody) : Bool :=
  match body.pregunta with
  | none => true
  | some s => s == ""

/-- A response of the `/consultar` endpoint: either the success
payload carrying the answer (HTTP 200) or the error payload carrying
the message, with its HTTP status. -/
inductive HttpResult where
  | respuesta (answer : String)
  | errorResp (msg : String) (status : Nat)
  deriving DecidableEq, Repr

/-- The POST path of the `/consultar` endpoint: reject a falsy
`pregunta` with the 400 error payload before any work; otherwise run
context building then generation inside the `try`, returning the
success payload, and convert any raised exception into the uniform
error payload `str(e)` with status 500. -/
def consultar (model : String → Vec)
    (gemini : String → Except PyErr GenResponse)
    (st : AppState) (body : RequestBody) : HttpResult × AppState :=
  if preguntaFalsy body then
    (.errorResp "Falta el campo 'pregunta'" 400, st)
  else
    match body.pregunta with
    | none => (.errorResp "Falta el campo 'pregunta'" 400, st)
    | some pregunta =>
        match buscar_contexto_para_gemini model st pregunta 3 with
        | (.error e, st1) => (.errorResp e.message 500, st1)
        | (.ok contexto, st1) =>
            match responder_con_gemini gemini st1 pregunta contexto with
            | (.error e, st2) => (.errorResp e.message 500, st2)
            | (.ok answer, st2) => (.respuesta answer, st2)

/-! ## Spec-side vocabulary for the context format -/

/-- The two-line block the spec describes: a document-name line
followed by a text line. -/
def twoLine (doc : DocRecord) : String :=
  "Documento: " ++ doc.file ++ "\nTexto: " ++ doc.text

/-- Concatenation of the per-record blocks, in retrieval order. -/
def concatBlocks : List DocRecord → String
  | [] => ""
  | d :: ds => fmtBlock d ++ concatBlocks ds

/-! ## Concrete instances used by the witnesses -/

/-- A deterministic stand-in for the SentenceTransformer model. -/
def demoModel : String → Vec := fun t => [Int.ofNat t.length]

/-- A two-vector FAISS index whose nearest-first ranking is position 1
then position 0 for every query. -/
def demoIndex : FaissIndex :=
  { ntotal := 2, rank := fun _ => [1, 0]
    rank_perm := fun _ => (by decide : ([1, 0] : List Nat).Perm (List.range 2)) }

/-- Sample document records. -/
def docA : DocRecord := { file := "a.txt", text := "A" }

/-- Second sample document record. -/
def docB : DocRecord := { file := "b.txt", text := "B" }

/-- Metadata matching `demoIndex` (two records for two vectors). -/
def demoMetadata : List DocRecord := [docA, docB]

/-- A loaded state whose metadata count matches the index. -/
def demoState : AppState :=
  { index := some demoIndex, metadata := some demoMetadata, cache := []
    modelCalls := 0, searchCalls := 0, genCalls := 0 }

/-- A loaded state whose metadata (one record) is shorter than the
index (two vectors): the broken count invariant. -/
def demoMismatchState : AppState :=
  { index := some demoIndex, metadata := some [docA], cache := []
    modelCalls := 0, searchCalls := 0, genCalls := 0 }

/-- A Gemini collaborator that always answers with a direct `text`
attribute. -/
def demoGeminiOk : String → Except PyErr GenResponse :=
  fun _ => .ok { text := some "respuesta demo", candidates := none, raw := "obj" }

/-! ## Helper lemmas -/

/-- Embedding (cache lookup or model call) never touches the loaded
index or metadata. -/
theorem obtener_preserves_globals (model : String → Vec) (st : AppState) (t : String) :
    (obtener_embedding_local model st t).2.index = st.index ∧
    (obtener_embedding_local model st t).2.metadata = st.metadata := by
  unfold obtener_embedding_local
  cases st.cache.lookup t <;> simp

/-- Context building never touches the loaded index or metadata. -/
theorem buscar_preserves_globals (model : String → Vec) (st : AppState)
    (q : String) (k : Nat) :
    (buscar_contexto_para_gemini model st q k).2.index = st.index ∧
    (buscar_contexto_para_gemini model st q k).2.metadata = st.metadata := by
  unfold buscar_contexto_para_gemini
  rcases hidx : st.index with _ | idx <;> rcases hmd : st.metadata with _ | md <;>
    simp [hidx, hmd, (obtener_preserves_globals model st q).1,
      (obtener_preserves_globals model st q).2]

/-- Answer generation never touches the loaded index or metadata. -/
theorem responder_preserves_globals (gemini : String → Except PyErr GenResponse)
    (st : AppState) (pregunta contexto : String) :
    (responder_con_gemini gemini st pregunta contexto).2.index = st.index ∧
    (responder_con_gemini gemini st pregunta contexto).2.metadata = st.metadata := by
  unfold responder_con_gemini
  cases gemini (promptTemplate contexto pregunta) <;> simp

/-- A whole `/consultar` request never touches the loaded index or
metadata. -/
theorem consultar_preserves_globals (model : String → Vec)
    (gemini : String → Except PyErr GenResponse) (st : AppState) (body : RequestBody) :
    (consultar model gemini st body).2.index = st.index ∧
    (consultar model gemini st body).2.metadata = st.metadata := by
  unfold consultar
  by_cases hf : preguntaFalsy body = true
  · simp [hf]
  · rcases hp : body.pregunta with _ | p
    · simp [hf, hp]
    · have h1 := buscar_preserves_globals model st p 3
      rcases hb : buscar_contexto_para_gemini model st p 3 with ⟨r1, st1⟩
      rw [hb] at h1
      simp only [Prod.snd] at h1
      have h2 := responder_preserves_globals gemini st1 p
      rcases r1 with e | ctx
      · simp [hf, hp, hb, h1.1, h1.2]
      · have h2c := h2 ctx
        rcases hr : responder_con_gemini gemini st1 p ctx with ⟨r2, st2⟩
        rw [hr] at h2c
        simp only [Prod.snd] at h2c
        rcases r2 with e | a <;>
          simp [hf, hp, hb, hr, h2c.1, h2c.2, h1.1, h1.2]

/-- C10: after module initialization the globals `index` and
`metadata` are either both loaded or both `None` (they are assigned
together and never reassigned); under that invariant the availability
guard `index is None or metadata is None` is equivalent to checking
either global alone, and every `/consultar` request leaves both
globals unchanged. -/
theorem c10_globals_both_or_neither :
    (∀ fs : FileSystem,
       ((initState fs).index = none ↔ (initState fs).metadata = none)) ∧
    (∀ st : AppState, (st.index = none ↔ st.metadata = none) →
       (((st.index.isNone ∨ st.metadata.isNone) ↔ st.index = none) ∧
        ((st.index.isNone ∨ st.metadata.isNone) ↔ st.metadata = none))) ∧
    (∀ (model : String → Vec) (gemini : String → Except PyErr GenResponse)
       (st : AppState) (body : RequestBody),
       (consultar model gemini st body).2.index = st.index ∧
       (consultar model gemini st body).2.metadata = st.metadata) := by
  refine ⟨?_, ?_, fun model gemini st body => consultar_preserves_globals model gemini st body⟩
  · intro fs
    rcases h : cargar_index_y_metadata fs with e | ⟨idx, md⟩ <;> simp [initState, h]
  · intro st h
    simp only [Option.isNone_iff_eq_none]
    constructor <;> constructor
    · rintro (h1 | h2)
      · exact h1
      · exact h.mpr h2
    · exact fun h1 => Or.inl h1
    · rintro (h1 | h2)
      · exact h.mp h1
      · exact h2
    · exact fun h2 => Or.inr h2

/-- Witness for C10 at concrete states: a failed load leaves both
globals `None`, the guard on a loaded state reduces to the `index`
check, and a concrete request preserves the loaded index. -/
theorem c10_witness :
    ((initState ⟨none, none⟩).index = none ↔ (initState ⟨none, none⟩).metadata = none) ∧
    ((demoState.index.isNone ∨ demoState.metadata.isNone) ↔ demoState.index = none) ∧
    (consultar demoModel demoGeminiOk demoState ⟨some "hola"⟩).2.index = demoState.index :=
  ⟨c10_globals_both_or_neither.1 ⟨none, none⟩,
   (c10_globals_both_or_neither.2.1 demoState (by simp [demoState])).1,
   (c10_globals_both_or_neither.2.2 demoModel demoGeminiOk demoState ⟨some "hola"⟩).1⟩

/-- C4: a request whose `pregunta` field is missing or empty is
rejected with the 400 `Falta el campo 'pregunta'` error payload, and
no embedding-model call, no index search and no generation call is
attempted (every ghost counter is unchanged). -/
theorem c4_invalid_input_fail_fast (model : String → Vec)
    (gemini : String → Except PyErr GenResponse) (st : AppState) (body : RequestBody)
    (h : body.pregunta = none ∨ body.pregunta = some "") :
    consultar model gemini st body = (.errorResp "Falta el campo 'pregunta'" 400, st) ∧
    (consultar model gemini st body).2.modelCalls = st.modelCalls ∧
    (consultar model gemini st body).2.searchCalls = st.searchCalls ∧
    (consultar model gemini st body).2.genCalls = st.genCalls := by
  have hf : preguntaFalsy body = true := by
    rcases h with h | h <;> simp [preguntaFalsy, h]
  refine ⟨?_, ?_, ?_, ?_⟩ <;> simp [consultar, hf]

/-- Witness for C4: a concrete request with the field missing is
rejected with the 400 payload and an unchanged state. -/
theorem c4_witness :
    consultar demoModel demoGeminiOk demoState ⟨none⟩
      = (.errorResp "Falta el campo 'pregunta'" 400, demoState) ∧
    (consultar demoModel demoGeminiOk demoState ⟨none⟩).2.modelCalls = demoState.modelCalls ∧
    (consultar demoModel demoGeminiOk demoState ⟨none⟩).2.searchCalls = demoState.searchCalls ∧
    (consultar demoModel demoGeminiOk demoState ⟨none⟩).2.genCalls = demoState.genCalls :=
  c4_invalid_input_fail_fast demoModel demoGeminiOk demoState ⟨none⟩ (Or.inl rfl)

/-- C9: when startup loading fails, every subsequent non-empty query
returns the uniform service-unavailable error payload (the
`RuntimeError` message under status 500) and attempts no embedding,
no index search and no generation call. -/
theorem c9_startup_failure_short_circuits (fs : FileSystem) (e : PyErr)
    (he : cargar_index_y_metadata fs = .error e) (model : String → Vec)
    (gemini : String → Except PyErr GenResponse) (body : RequestBody) (p : String)
    (hp : body.pregunta = some p) (hne : p ≠ "") :
    consultar model gemini (initState fs) body
      = (.errorResp "⚠️ El índice FAISS no está disponible en memoria" 500, initState fs) ∧
    (consultar model gemini (initState fs) body).2.searchCalls = 0 ∧
    (consultar model gemini (initState fs) body).2.modelCalls = 0 ∧
    (consultar model gemini (initState fs) body).2.genCalls = 0 := by
  have hi : initState fs
      = { index := none, metadata := none, cache := []
          modelCalls := 0, searchCalls := 0, genCalls := 0 } := by
    simp [initState, he]
  have hf : preguntaFalsy body = false := by simp [preguntaFalsy, hp, hne]
  rw [hi]
  refine ⟨?_, ?_, ?_, ?_⟩ <;>
    simp [consultar, hf, hp, buscar_contexto_para_gemini, PyErr.message]

/-- Witness for C9: with both files absent the load fails, and a
concrete question afterwards yields the service-unavailable payload
with all collaborator counters at zero. -/
theorem c9_witness :
    consultar demoModel demoGeminiOk (initState ⟨none, none⟩) ⟨some "hola"⟩
      = (.errorResp "⚠️ El índice FAISS no está disponible en memoria" 500,
         initState ⟨none, none⟩) ∧
    (consultar demoModel demoGeminiOk (initState ⟨none, none⟩) ⟨some "hola"⟩).2.searchCalls = 0 ∧
    (consultar demoModel demoGeminiOk (initState ⟨none, none⟩) ⟨some "hola"⟩).2.modelCalls = 0 ∧
    (consultar demoModel demoGeminiOk (initState ⟨none, none⟩) ⟨some "hola"⟩).2.genCalls = 0 :=
  c9_startup_failure_short_circuits ⟨none, none⟩
    (.fileNotFound "❌ No se encontraron los archivos FAISS o metadata.json") rfl
    demoModel demoGeminiOk ⟨some "hola"⟩ "hola" rfl (by decide)

/-- C6: index loading fails exactly on a missing index file, a missing
metadata file, or non-list metadata; whenever both files exist and the
metadata parses as a list the load succeeds — with no constraint at
all relating the record count to the index's vector count. -/
theorem c6_load_error_exactly_when (fs : FileSystem) :
    ((fs.indexFile = none ∨ fs.metadataFile = none) →
       cargar_index_y_metadata fs
         = .error (.fileNotFound "❌ No se encontraron los archivos FAISS o metadata.json")) ∧
    (∀ idx, fs.indexFile = some idx → fs.metadataFile = some .notList →
       cargar_index_y_metadata fs
         = .error (.valueError "❌ metadata.json debe ser una lista de diccionarios")) ∧
    (∀ idx records, fs.indexFile = some idx → fs.metadataFile = some (.jlist records) →
       cargar_index_y_metadata fs = .ok (idx, records)) := by
  refine ⟨?_, ?_, ?_⟩
  · rintro (h | h) <;> simp [cargar_index_y_metadata, h]
  · intro idx h1 h2
    simp [cargar_index_y_metadata, h1, h2]
  · intro idx records h1 h2
    simp [cargar_index_y_metadata, h1, h2]

/-- Witness for C6 at concrete file systems, including a successful
load whose one metadata record does not match the index's two
vectors. -/
theorem c6_witness :
    cargar_index_y_metadata ⟨none, some (.jlist [docA])⟩
      = .error (.fileNotFound "❌ No se encontraron los archivos FAISS o metadata.json") ∧
    cargar_index_y_metadata ⟨some demoIndex, some .notList⟩
      = .error (.valueError "❌ metadata.json debe ser una lista de diccionarios") ∧
    cargar_index_y_metadata ⟨some demoIndex, some (.jlist [docA])⟩
      = .ok (demoIndex, [docA]) ∧
    demoIndex.ntotal ≠ [docA].length :=
  ⟨(c6_load_error_exactly_when ⟨none, some (.jlist [docA])⟩).1 (Or.inl rfl),
   (c6_load_error_exactly_when ⟨some demoIndex, some .notList⟩).2.1 demoIndex rfl rfl,
   (c6_load_error_exactly_when ⟨some demoIndex, some (.jlist [docA])⟩).2.2
     demoIndex [docA] rfl rfl,
   by decide⟩

/-- C5: answer extraction tries the direct `text` attribute first and
returns it when present; otherwise, when `candidates` is present, it
returns the nested `candidates[0].content.parts[0].text`; when neither
attribute is present it fails with a `ValueError` whose message
carries the raw response representation.  `responder_con_gemini`
applies exactly this extraction to the generated response. -/
theorem c5_answer_extraction_order :
    (∀ (gemini : String → Except PyErr GenResponse) (st : AppState)
       (pregunta contexto : String) (r : GenResponse),
       gemini (promptTemplate contexto pregunta) = .ok r →
       (responder_con_gemini gemini st pregunta contexto).1 = extractAnswer r) ∧
    (∀ (r : GenResponse) (t : String), r.text = some t → extractAnswer r = .ok t) ∧
    (∀ (r : GenResponse) (cs : List GenCandidate) (c : GenCandidate) (p : GenPart),
       r.text = none → r.candidates = some cs → cs.head? = some c →
       c.content.parts.head? = some p → extractAnswer r = .ok p.text) ∧
    (∀ r : GenResponse, r.text = none → r.candidates = none →
       extractAnswer r
         = .error (.valueError
             ("❌ No se pudo interpretar la respuesta de Gemini: " ++ r.raw))) := by
  refine ⟨?_, ?_, ?_, ?_⟩
  · intro gemini st pregunta contexto r h
    simp [responder_con_gemini, h]
  · intro r t h
    simp [extractAnswer, h]
  · intro r cs c p h1 h2 h3 h4
    simp [extractAnswer, h1, h2, h3, h4]
  · intro r h1 h2
    simp [extractAnswer, h1, h2]

/-- Witness for C5 at concrete responses: a direct-text response, a
nested-candidates response, and a shapeless response. -/
theorem c5_witness :
    (responder_con_gemini demoGeminiOk demoState "hola" "ctx").1
      = extractAnswer { text := some "respuesta demo", candidates := none, raw := "obj" } ∧
    extractAnswer { text := some "directa", candidates := none, raw := "r1" } = .ok "directa" ∧
    extractAnswer
        { text := none
          candidates := some [{ content := { parts := [{ text := "anidada" }] } }]
          raw := "r2" }
      = .ok "anidada" ∧
    extractAnswer { text := none, candidates := none, raw := "objeto crudo" }
      = .error (.valueError "❌ No se pudo interpretar la respuesta de Gemini: objeto crudo") :=
  ⟨c5_answer_extraction_order.1 demoGeminiOk demoState "hola" "ctx" _ rfl,
   c5_answer_extraction_order.2.1 _ "directa" rfl,
   c5_answer_extraction_order.2.2.1 _ [{ content := { parts := [{ text := "anidada" }] } }]
     { content := { parts := [{ text := "anidada" }] } } { text := "anidada" } rfl rfl rfl rfl,
   c5_answer_extraction_order.2.2.2 _ rfl rfl⟩

/-- Moving a found cache entry to the front leaves the cache size
unchanged: the erased occurrence is replaced by the fronted one. -/
theorem length_cons_eraseP_of_lookup (t : String) (v : Vec) (c : List (String × Vec))
    (h : c.lookup t = some v) :
    ((t, v) :: c.eraseP (fun e => t == e.1)).length = c.length := by
  induction c with
  | nil => simp [List.lookup] at h
  | cons kv rest ih =>
    rcases kv with ⟨k, w⟩
    by_cases hk : (t == k) = true
    · simp [List.eraseP_cons, hk]
    · have h' : rest.lookup t = some v := by
        simpa [List.lookup, Bool.eq_false_iff.mpr hk] using h
      have := ih h'
      simp only [List.eraseP_cons, hk, cond_false, List.length_cons] at *
      omega

/-- C7: the memoized local embedding: an immediately repeated call
with the identical text returns the identical vector with no further
model invocation (the second call is a cache hit); the cache is keyed
by the exact input text, a hit costs no model call and keeps the size,
a miss inserts the fresh entry at the most-recently-used front keeping
at most the first `lruCapacity - 1` old entries (evicting from the
least-recently-used end), and the cache size never exceeds the
capacity 5000. -/
theorem c7_embedding_memoized_lru (model : String → Vec) (st : AppState) (t : String) :
    ((obtener_embedding_local model (obtener_embedding_local model st t).2 t).1
        = (obtener_embedding_local model st t).1) ∧
    ((obtener_embedding_local model (obtener_embedding_local model st t).2 t).2.modelCalls
        = (obtener_embedding_local model st t).2.modelCalls) ∧
    ((obtener_embedding_local model st t).2.modelCalls ≤ st.modelCalls + 1) ∧
    (∀ v, st.cache.lookup t = some v →
        (obtener_embedding_local model st t).1 = v ∧
        (obtener_embedding_local model st t).2.modelCalls = st.modelCalls ∧
        (obtener_embedding_local model st t).2.cache.length = st.cache.length) ∧
    (st.cache.lookup t = none →
        (obtener_embedding_local model st t).1 = model t ∧
        (obtener_embedding_local model st t).2.modelCalls = st.modelCalls + 1 ∧
        (obtener_embedding_local model st t).2.cache
          = (t, model t) :: st.cache.take (lruCapacity - 1)) ∧
    (st.cache.length ≤ lruCapacity →
        (obtener_embedding_local model st t).2.cache.length ≤ lruCapacity) := by
  cases h : st.cache.lookup t with
  | some v =>
    have hlen := length_cons_eraseP_of_lookup t v st.cache h
    refine ⟨?_, ?_, ?_, ?_, ?_, ?_⟩
    · simp [obtener_embedding_local, h, List.lookup]
    · simp [obtener_embedding_local, h, List.lookup]
    · simp [obtener_embedding_local, h]
    · intro v' hv'
      cases hv'
      exact ⟨by simp [obtener_embedding_local, h],
             by simp [obtener_embedding_local, h],
             by simpa [obtener_embedding_local, h] using hlen⟩
    · intro hn
      simp at hn
    · intro hcap
      have : (obtener_embedding_local model st t).2.cache.length = st.cache.length := by
        simpa [obtener_embedding_local, h] using hlen
      omega
  | none =>
    have htake : ((t, model t) :: st.cache).take lruCapacity
        = (t, model t) :: st.cache.take (lruCapacity - 1) := by
      rw [show lruCapacity = 4999 + 1 from rfl, List.take_succ_cons]
    refine ⟨?_, ?_, ?_, ?_, ?_, ?_⟩
    · simp [obtener_embedding_local, h, htake, List.lookup]
    · simp [obtener_embedding_local, h, htake, List.lookup]
    · simp [obtener_embedding_local, h]
    · intro v' hv'
      simp at hv'
    · intro _
      exact ⟨by simp [obtener_embedding_local, h],
             by simp [obtener_embedding_local, h],
             by simp [obtener_embedding_local, h, htake]⟩
    · intro _
      have : (obtener_embedding_local model st t).2.cache.length
          = min lruCapacity (st.cache.length + 1) := by
        simp [obtener_embedding_local, h, List.length_take]
      omega

/-- Witness for C7: a first call on the empty cache invokes the model
once, and the immediate repeat returns the identical vector with no
further invocation. -/
theorem c7_witness :
    ((obtener_embedding_local demoModel (obtener_embedding_local demoModel demoState "hola").2 "hola").1
        = (obtener_embedding_local demoModel demoState "hola").1) ∧
    ((obtener_embedding_local demoModel (obtener_embedding_local demoModel demoState "hola").2 "hola").2.modelCalls
        = (obtener_embedding_local demoModel demoState "hola").2.modelCalls) ∧
    ((obtener_embedding_local demoModel demoState "hola").1 = demoModel "hola" ∧
     (obtener_embedding_local demoModel demoState "hola").2.modelCalls
        = demoState.modelCalls + 1 ∧
     (obtener_embedding_local demoModel demoState "hola").2.cache
        = ("hola", demoModel "hola") :: demoState.cache.take (lruCapacity - 1)) :=
  ⟨(c7_embedding_memoized_lru demoModel demoState "hola").1,
   (c7_embedding_memoized_lru demoModel demoState "hola").2.1,
   (c7_embedding_memoized_lru demoModel demoState "hola").2.2.2.2.1 rfl⟩

/-- If any position in the remaining search results is at least the
record count, the context loop ends in `IndexError` whatever the
accumulator holds. -/
theorem buildLoop_oob (md : List DocRecord) :
    ∀ (ps : List Int) (acc : String), (∃ p ∈ ps, (md.length : Int) ≤ p) →
      buildLoop md acc ps = .error (.indexError "list index out of range") := by
  intro ps
  induction ps with
  | nil =>
    intro acc h
    rcases h with ⟨p, hp, _⟩
    simp at hp
  | cons q qs ih =>
    intro acc h
    rcases h with ⟨p, hp, hge⟩
    rcases List.mem_cons.mp hp with rfl | hmem
    · have h0 : (0 : Int) ≤ p := le_trans (Int.ofNat_nonneg md.length) hge
      have hnone : pyGet md p = none := by
        unfold pyGet
        rw [if_pos h0]
        refine List.get?_eq_none.mpr ?_
        omega
      simp [buildLoop, hnone]
    · cases hg : pyGet md q with
      | none => simp [buildLoop, hg]
      | some doc =>
        simp only [buildLoop, hg]
        exact ih (acc ++ fmtBlock doc) ⟨p, hmem, hge⟩

/-- C1: with the index and metadata loaded, if the search returns any
position `p` with `p ≥` the number of document records, context
building fails with the `IndexError` (list index out of range) rather
than returning a context. -/
theorem c1_out_of_range_raises (model : String → Vec) (st : AppState)
    (idx : FaissIndex) (md : List DocRecord) (consulta : String) (k : Nat) (p : Int)
    (hidx : st.index = some idx) (hmd : st.metadata = some md)
    (hp : p ∈ faissSearch idx (obtener_embedding_local model st consulta).1 k)
    (hge : (md.length : Int) ≤ p) :
    (buscar_contexto_para_gemini model st consulta k).1
      = .error (.indexError "list index out of range") := by
  unfold buscar_contexto_para_gemini
  simp only [hidx, hmd, Option.isNone_some, Bool.false_eq_true, or_self, if_false]
  exact buildLoop_oob md _ "" ⟨p, hp, hge⟩

/-- Witness for C1: a two-vector index paired with a single metadata
record; the search returns position 1, which is out of range, and the
build fails with `IndexError`. -/
theorem c1_witness :
    (buscar_contexto_para_gemini demoModel demoMismatchState "hola" 3).1
      = .error (.indexError "list index out of range") :=
  c1_out_of_range_raises demoModel demoMismatchState demoIndex [docA] "hola" 3 1
    rfl rfl (by decide) (by decide)

/-- C3: for a non-empty question, `/consultar` yields exactly one of
the success payload or the error payload: either the pipeline
succeeded and the result is `respuesta` (and not an error payload), or
some step of the context-build / generation pipeline raised an
exception `e` and the result is the single uniform error payload
carrying `str(e)` under status 500 (and not a success payload). -/
theorem c3_exactly_one_of_answer_or_error (model : String → Vec)
    (gemini : String → Except PyErr GenResponse) (st : AppState)
    (body : RequestBody) (p : String) (hp : body.pregunta = some p) (hne : p ≠ "") :
    ((∃ a, (consultar model gemini st body).1 = .respuesta a) ∧
       ∀ m s, (consultar model gemini st body).1 ≠ .errorResp m s) ∨
    ((∃ e : PyErr,
        (consultar model gemini st body).1 = .errorResp e.message 500 ∧
        ((buscar_contexto_para_gemini model st p 3).1 = .error e ∨
         ∃ ctx, (buscar_contexto_para_gemini model st p 3).1 = .ok ctx ∧
           (responder_con_gemini gemini (buscar_contexto_para_gemini model st p 3).2
              p ctx).1 = .error e)) ∧
       ∀ a, (consultar model gemini st body).1 ≠ .respuesta a) := by
  have hf : preguntaFalsy body = false := by simp [preguntaFalsy, hp, hne]
  rcases hb : buscar_contexto_para_gemini model st p 3 with ⟨r1, st1⟩
  rcases r1 with e | ctx
  · right
    refine ⟨⟨e, ?_, Or.inl rfl⟩, ?_⟩
    · simp [consultar, hf, hp, hb]
    · intro a
      simp [consultar, hf, hp, hb]
  · rcases hr : responder_con_gemini gemini st1 p ctx with ⟨r2, st2⟩
    rcases r2 with e | ans
    · right
      refine ⟨⟨e, ?_, Or.inr ⟨ctx, rfl, by simp [hr]⟩⟩, ?_⟩
      · simp [consultar, hf, hp, hb, hr]
      · intro a
        simp [consultar, hf, hp, hb, hr]
    · left
      refine ⟨⟨ans, ?_⟩, ?_⟩
      · simp [consultar, hf, hp, hb, hr]
      · intro m s
        simp [consultar, hf, hp, hb, hr]

/-- Witness for C3 at a concrete request: a loaded state and a Gemini
stub that answers directly, on the question `hola`. -/
theorem c3_witness :
    ((∃ a, (consultar demoModel demoGeminiOk demoState ⟨some "hola"⟩).1 = .respuesta a) ∧
       ∀ m s, (consultar demoModel demoGeminiOk demoState ⟨some "hola"⟩).1 ≠ .errorResp m s) ∨
    ((∃ e : PyErr,
        (consultar demoModel demoGeminiOk demoState ⟨some "hola"⟩).1 = .errorResp e.message 500 ∧
        ((buscar_contexto_para_gemini demoModel demoState "hola" 3).1 = .error e ∨
         ∃ ctx, (buscar_contexto_para_gemini demoModel demoState "hola" 3).1 = .ok ctx ∧
           (responder_con_gemini demoGeminiOk
              (buscar_contexto_para_gemini demoModel demoState "hola" 3).2
              "hola" ctx).1 = .error e)) ∧
       ∀ a, (consultar demoModel demoGeminiOk demoState ⟨some "hola"⟩).1 ≠ .respuesta a) :=
  c3_exactly_one_of_answer_or_error demoModel demoGeminiOk demoState ⟨some "hola"⟩ "hola"
    rfl (by decide)

/-- Subscription with a non-negative Python index is plain list
lookup. -/
theorem pyGet_ofNat (md : List DocRecord) (n : Nat) :
    pyGet md (Int.ofNat n) = md.get? n := by
  simp [pyGet]

/-- Each block is the spec's two-line block followed by the blank-line
separator. -/
theorem fmtBlock_eq_twoLine (d : DocRecord) : fmtBlock d = twoLine d ++ "\n\n" := rfl

/-- When every remaining position subscripts successfully, the loop
returns the accumulator followed by the blocks of the retrieved
records, in position order. -/
theorem buildLoop_ok (md : List DocRecord) :
    ∀ (ps : List Int) (acc : String), (∀ p ∈ ps, (pyGet md p).isSome) →
      buildLoop md acc ps = .ok (acc ++ concatBlocks (ps.filterMap (pyGet md))) := by
  intro ps
  induction ps with
  | nil =>
    intro acc _
    simp [buildLoop, concatBlocks, String.append_empty]
  | cons q qs ih =>
    intro acc h
    rcases Option.isSome_iff_exists.mp (h q (by simp)) with ⟨doc, hdoc⟩
    have hrest : ∀ p ∈ qs, (pyGet md p).isSome := fun p hp => h p (by simp [hp])
    simp only [buildLoop, hdoc]
    rw [ih (acc ++ fmtBlock doc) hrest]
    simp [List.filterMap_cons, hdoc, concatBlocks, String.append_assoc]

/-- Every retrieved record's full block occurs inside the
concatenation: nothing is truncated. -/
theorem concatBlocks_mem_infix (d : DocRecord) :
    ∀ rs : List DocRecord, d ∈ rs →
      ∃ pre post, concatBlocks rs = pre ++ fmtBlock d ++ post := by
  intro rs
  induction rs with
  | nil =>
    intro h
    simp at h
  | cons r rest ih =>
    intro h
    rcases List.mem_cons.mp h with rfl | hmem
    · exact ⟨"", concatBlocks rest, by simp [concatBlocks, String.empty_append]⟩
    · rcases ih hmem with ⟨pre, post, hpp⟩
      exact ⟨fmtBlock r ++ pre, post, by simp [concatBlocks, hpp, String.append_assoc]⟩

/-- Looking up every in-range position yields exactly the records, in
the same order. -/
theorem map_get?_eq_filterMap (md : List DocRecord) :
    ∀ l : List Nat, (∀ n ∈ l, n < md.length) →
      l.map md.get? = (l.filterMap (fun n => md.get? n)).map some := by
  intro l
  induction l with
  | nil => simp
  | cons n rest ih =>
    intro h
    have hn : n < md.length := h n (by simp)
    have hsome := List.get?_eq_get hn
    simp only [List.map_cons, List.filterMap_cons, hsome]
    simp [ih (fun m hm => h m (by simp [hm]))]

/-- If the context loop ends successfully, every traversed position
subscripted successfully and the result is the accumulator followed by
the blocks of the retrieved records, one per position, in position
order. -/
theorem buildLoop_ok_inv (md : List DocRecord) :
    ∀ (ps : List Int) (acc ctx : String), buildLoop md acc ps = .ok ctx →
      ∃ retrieved : List DocRecord,
        ps.map (pyGet md) = retrieved.map some ∧
        ctx = acc ++ concatBlocks retrieved := by
  intro ps
  induction ps with
  | nil =>
    intro acc ctx h
    refine ⟨[], by simp, ?_⟩
    simp only [buildLoop] at h
    cases h
    simp [concatBlocks, String.append_empty]
  | cons q qs ih =>
    intro acc ctx h
    cases hq : pyGet md q with
    | none => simp [buildLoop, hq] at h
    | some doc =>
      simp only [buildLoop, hq] at h
      rcases ih (acc ++ fmtBlock doc) ctx h with ⟨rs, hmap, hctx⟩
      refine ⟨doc :: rs, ?_, ?_⟩
      · simp [hq, hmap]
      · rw [hctx, concatBlocks, String.append_assoc]

/-- C8: every successful context build returns the concatenation, in
the order of the positions returned by the search (nearest first), of
exactly one block per retrieved record, each block being the two-line
`Documento:`/`Texto:` block followed by the blank-line separator, with
every retrieved record's full block (hence its whole untruncated
text) occurring in the result. -/
theorem c8_context_is_ordered_blocks (model : String → Vec) (st : AppState)
    (consulta : String) (k : Nat) (ctx : String)
    (hok : (buscar_contexto_para_gemini model st consulta k).1 = .ok ctx) :
    ∃ (idx : FaissIndex) (md : List DocRecord) (retrieved : List DocRecord),
      st.index = some idx ∧ st.metadata = some md ∧
      (faissSearch idx (obtener_embedding_local model st consulta).1 k).map (pyGet md)
          = retrieved.map some ∧
      ctx = concatBlocks retrieved ∧
      (∀ d, d ∈ retrieved →
         ∃ pre post, ctx = pre ++ (twoLine d ++ "\n\n") ++ post) := by
  unfold buscar_contexto_para_gemini at hok
  rcases hidx : st.index with _ | idx <;> rcases hmd : st.metadata with _ | md <;>
    rw [hidx, hmd] at hok
  · simp at hok
  · simp at hok
  · simp at hok
  · simp only [Option.isNone_some, Bool.false_eq_true, or_self, if_false] at hok
    rcases buildLoop_ok_inv md
        (faissSearch idx (obtener_embedding_local model st consulta).1 k) "" ctx hok with
      ⟨retrieved, hmap, hctx⟩
    refine ⟨idx, md, retrieved, rfl, rfl, hmap, ?_, ?_⟩
    · rw [hctx, String.empty_append]
    · intro d hd
      rcases concatBlocks_mem_infix d retrieved hd with ⟨pre, post, hpp⟩
      exact ⟨pre, post, by rw [hctx, String.empty_append, hpp, fmtBlock_eq_twoLine]⟩

/-- Witness for C8 at the padded case itself: the default `top_k = 3`
on the two-vector demo index succeeds, and the context is one block
per returned position — the two records nearest-first plus the block
of the `-1`-retrieved last record. -/
theorem c8_witness :
    ∃ (idx : FaissIndex) (md : List DocRecord) (retrieved : List DocRecord),
      demoState.index = some idx ∧ demoState.metadata = some md ∧
      (faissSearch idx (obtener_embedding_local demoModel demoState "hola").1 3).map
          (pyGet md) = retrieved.map some ∧
      concatBlocks [docB, docA, docB] = concatBlocks retrieved ∧
      (∀ d, d ∈ retrieved →
         ∃ pre post,
           concatBlocks [docB, docA, docB] = pre ++ (twoLine d ++ "\n\n") ++ post) :=
  c8_context_is_ordered_blocks demoModel demoState "hola" 3
    (concatBlocks [docB, docA, docB]) (by rfl)

/-- Subscription with Python index `-1` returns the last record of a
non-empty list. -/
theorem pyGet_neg_one (md : List DocRecord) (h : 1 ≤ md.length) :
    pyGet md (-1) = md.get? (md.length - 1) := by
  unfold pyGet
  rw [if_neg (by omega), if_pos (by omega)]
  congr 1
  omega

/-- The `-1` padding labels all subscript to the same last record. -/
theorem filterMap_replicate_neg_one (md : List DocRecord) (lastRec : DocRecord)
    (h : pyGet md (-1) = some lastRec) (m : Nat) :
    (List.replicate m (-1 : Int)).filterMap (pyGet md) = List.replicate m lastRec := by
  induction m with
  | zero => simp
  | succ m ih => simp [List.replicate_succ, List.filterMap_cons, h, ih]

/-- C2 counterexample: a two-vector index with two matching records,
queried with the default `top_k = 3`, yields a context holding THREE
blocks — both records plus a duplicate of the last record (FAISS pads
the missing neighbour with `-1`, which Python resolves to
`metadata[-1]`) — not "exactly the n available document records". -/
theorem c2_counterexample :
    demoIndex.ntotal = 2 ∧ demoMetadata.length = 2 ∧
    (buscar_contexto_para_gemini demoModel demoState "hola" 3).1
      = .ok (concatBlocks [docB, docA, docB]) ∧
    concatBlocks [docB, docA, docB] ≠ concatBlocks [docB, docA] := by
  refine ⟨rfl, rfl, by rfl, by decide⟩

/-- C2 amended: when `top_k` exceeds the number `n` of indexed vectors
(metadata counts matching, at least one record), context building
returns without error a context holding the `n` available records
nearest-first FOLLOWED BY `top_k − n` further copies of the last
metadata record, because FAISS pads the missing positions with `-1`
and Python's negative indexing maps `-1` to the last record. -/
theorem c2_amended_k_exceeds_padding (model : String → Vec) (st : AppState)
    (idx : FaissIndex) (md : List DocRecord) (consulta : String) (k : Nat)
    (hidx : st.index = some idx) (hmd : st.metadata = some md)
    (hcount : md.length = idx.ntotal) (hn : 0 < idx.ntotal) (hk : idx.ntotal ≤ k) :
    ∃ (retrieved : List DocRecord) (lastRec : DocRecord),
      (idx.rank (obtener_embedding_local model st consulta).1).map md.get?
          = retrieved.map some ∧
      md.get? (md.length - 1) = some lastRec ∧
      (buscar_contexto_para_gemini model st consulta k).1
        = .ok (concatBlocks (retrieved ++ List.replicate (k - idx.ntotal) lastRec)) := by
  set v := (obtener_embedding_local model st consulta).1 with hv
  set l := idx.rank v with hl
  have hlt : ∀ n ∈ l, n < md.length := by
    intro n hn'
    have : n ∈ List.range idx.ntotal := (idx.rank_perm v).mem_iff.mp hn'
    rw [hcount]
    exact List.mem_range.mp this
  have hmd1 : 1 ≤ md.length := by omega
  have hlast : md.get? (md.length - 1) = some (md.get ⟨md.length - 1, by omega⟩) :=
    List.get?_eq_get (by omega)
  refine ⟨l.filterMap (fun n => md.get? n), md.get ⟨md.length - 1, by omega⟩,
    map_get?_eq_filterMap md l hlt, hlast, ?_⟩
  have hneg : pyGet md (-1) = some (md.get ⟨md.length - 1, by omega⟩) := by
    rw [pyGet_neg_one md hmd1, hlast]
  have hrank : l.length = idx.ntotal := by
    simpa using (idx.rank_perm v).length_eq
  have htake : l.take k = l := List.take_of_length_le (by omega)
  have hsearch : faissSearch idx v k
      = l.map Int.ofNat ++ List.replicate (k - idx.ntotal) (-1) := by
    rw [faissSearch, ← hl, htake]
  have hall : ∀ p ∈ l.map Int.ofNat ++ List.replicate (k - idx.ntotal) (-1 : Int),
      (pyGet md p).isSome := by
    intro p hp
    rcases List.mem_append.mp hp with hp1 | hp2
    · rcases List.mem_map.mp hp1 with ⟨n, hn', rfl⟩
      rw [pyGet_ofNat]
      rw [List.get?_eq_get (hlt n hn')]
      simp
    · have : p = -1 := List.eq_of_mem_replicate hp2
      rw [this, hneg]
      simp
  have hfm : (l.map Int.ofNat).filterMap (pyGet md)
      = l.filterMap (fun n => md.get? n) := by
    rw [List.filterMap_map]
    refine List.filterMap_congr ?_
    intro n _
    simp [Function.comp, pyGet, List.get?_eq_getElem?]
  unfold buscar_contexto_para_gemini
  simp only [hidx, hmd, Option.isNone_some, Bool.false_eq_true, or_self, if_false]
  rw [← hv, hsearch, buildLoop_ok md _ "" hall, List.filterMap_append, hfm,
    filterMap_replicate_neg_one md _ hneg, String.empty_append]

/-- Witness for the amended C2 at the demo input: `top_k = 3` on a
two-vector index returns the two records followed by one copy of the
last record. -/
theorem c2_witness :
    ∃ (retrieved : List DocRecord) (lastRec : DocRecord),
      (demoIndex.rank (obtener_embedding_local demoModel demoState "hola").1).map
          demoMetadata.get? = retrieved.map some ∧
      demoMetadata.get? (demoMetadata.length - 1) = some lastRec ∧
      (buscar_contexto_para_gemini demoModel demoState "hola" 3).1
        = .ok (concatBlocks (retrieved ++ List.replicate (3 - demoIndex.ntotal) lastRec)) :=
  c2_amended_k_exceeds_padding demoModel demoState demoIndex demoMetadata "hola" 3
    rfl rfl rfl (by decide) (by decide)
